import Mathlib

/-
Verification of a single-file HTTP-triggered cloud function (src/main.py)
that triggers an Airflow DAG run through the Airflow 2 stable REST API.

The embedding models:
  - Python JSON-like values (PyVal) with Python truthiness and dict.get;
  - Python exceptions that the code can raise (PyErr), with str(e);
  - the HTTP response object of the requests library (HttpResponse),
    including raise_for_status semantics (errors only for 4xx/5xx);
  - the network as an explicit session function from the issued request
    to either a transport-level error or a response;
  - make_composer2_web_server_request, trigger_dag and trigger_dag_gcf
    as pure functions in the Except monad over PyErr.
-/

/-- Python JSON-like values as produced by JSON parsing and used by the
handler: strings, numbers, booleans, null, lists and objects. -/
inductive PyVal where
  | str (s : String)
  | int (n : Int)
  | bool (b : Bool)
  | null
  | list (xs : List PyVal)
  | obj (fields : List (String × PyVal))

/-- Python type name of a value, as it appears in AttributeError messages. -/
def PyVal.typeName : PyVal → String
  | .str _ => "str"
  | .int _ => "int"
  | .bool _ => "bool"
  | .null => "NoneType"
  | .list _ => "list"
  | .obj _ => "dict"

/-- Python truthiness of a JSON-like value: empty containers, empty strings,
zero, false and None are falsy, everything else is truthy. -/
def py_truthy : PyVal → Bool
  | .str s => !s.isEmpty
  | .int n => n != 0
  | .bool b => b
  | .null => false
  | .list xs => !xs.isEmpty
  | .obj fields => !fields.isEmpty

/-- Python exceptions the embedded code can raise: requests.HTTPError raised
explicitly or by raise_for_status, AttributeError from calling .get on a
non-dict, and transport-level failures from the HTTP session. -/
inductive PyErr where
  | HTTPError (msg : String)
  | AttributeError (msg : String)
  | TransportError (msg : String)
deriving Repr, DecidableEq

/-- Python str(e) on an exception: its message text. -/
def str_of_exc : PyErr → String
  | .HTTPError msg => msg
  | .AttributeError msg => msg
  | .TransportError msg => msg

/-- Python dict.get(key, default): on a dict, the first value bound to the
key, or the default when the key is absent; on anything else Python raises
AttributeError, since only dicts have a .get method. -/
def PyVal.get (v : PyVal) (key : String) (default : PyVal) : Except PyErr PyVal :=
  match v with
  | .obj fields => .ok ((fields.lookup key).getD default)
  | other => .error (.AttributeError
      ("'" ++ other.typeName ++ "' object has no attribute 'get'"))

/-- HTTP request as issued through the authorized session: requests.request
receives the method, the url and the remaining keyword arguments. The json
keyword holds the request body; the timeout keyword is present exactly when
the kwargs dict contains a timeout entry. -/
structure HttpRequest where
  method : String
  url : String
  json : Option PyVal
  timeout : Option Nat

/-- Keyword arguments of make_composer2_web_server_request that the code
reads or forwards: the json body and the optional timeout. A field holding
none models the key being absent from kwargs. -/
structure Kwargs where
  json : Option PyVal
  timeout : Option Nat

/-- HTTP response object of the requests library, restricted to the fields
the code reads: status_code, headers (modelled by their printed str form,
which is what the f-string interpolation produces), body text, the reason
phrase and the final url (both used by raise_for_status). -/
structure HttpResponse where
  status_code : Nat
  headers : String
  text : String
  reason : String
  url : String
deriving Repr, DecidableEq

/-- Network model: the authorized session maps the issued request to either
a transport-level failure or an HTTP response. -/
def HttpSession : Type := HttpRequest → Except PyErr HttpResponse

/-- requests.Response.raise_for_status: raises HTTPError with a message
naming the status code and reason phrase for 4xx (Client Error) and 5xx
(Server Error) status codes, and does nothing for all other codes. -/
def raise_for_status (response : HttpResponse) : Except PyErr Unit :=
  if 400 ≤ response.status_code ∧ response.status_code < 500 then
    .error (.HTTPError (toString response.status_code ++ " Client Error: " ++
      response.reason ++ " for url: " ++ response.url))
  else if 500 ≤ response.status_code ∧ response.status_code < 600 then
    .error (.HTTPError (toString response.status_code ++ " Server Error: " ++
      response.reason ++ " for url: " ++ response.url))
  else
    .ok ()

/-- make_composer2_web_server_request from src/main.py: sets kwargs.timeout
to 90 when the timeout key is missing, then issues the request through the
authorized session. -/
def make_composer2_web_server_request (session : HttpSession) (url : String)
    (method : String) (kwargs : Kwargs) : Except PyErr HttpResponse :=
  let kwargs' := if kwargs.timeout.isNone then { kwargs with timeout := some 90 } else kwargs
  session { method := method, url := url, json := kwargs'.json, timeout := kwargs'.timeout }

/-- trigger_dag from src/main.py: builds the dagRuns endpoint url, wraps the
configuration under the single key conf, POSTs it, and classifies the
response: 403 raises an explicit permission HTTPError, any other non-200
status goes through raise_for_status (which raises only for 4xx/5xx, so
other statuses fall off the end of the function returning Python None,
modelled by Option.none), and 200 returns the response body text. -/
def trigger_dag (session : HttpSession) (web_server_url : String)
    (dag_id : String) (data : List (String × PyVal)) :
    Except PyErr (Option String) := do
  let endpoint := "api/v1/dags/" ++ dag_id ++ "/dagRuns"
  let request_url := web_server_url ++ "/" ++ endpoint
  let json_data := PyVal.obj [("conf", PyVal.obj data)]
  let response ← make_composer2_web_server_request session request_url "POST"
    { json := some json_data, timeout := none }
  if response.status_code = 403 then
    .error (.HTTPError
      ("You do not have a permission to perform this operation. " ++
       "Check Airflow RBAC roles for your account." ++
       response.headers ++ " / " ++ response.text))
  else if response.status_code ≠ 200 then do
    raise_for_status response
    pure none
  else
    pure (some response.text)

/-- Inbound flask request, restricted to what the handler reads: the HTTP
method, the result of request.get_json(silent=True) on the body (some v when
the body parses as JSON value v; none when the body is absent or is not
valid JSON, since silent parsing returns None instead of raising), and the
query parameters request.args as an association list. -/
structure FlaskRequest where
  method : String
  json_body : Option PyVal
  args : List (String × String)

/-- Success dictionary returned by the handler on the no-exception path;
returning a bare dict from a flask handler yields implicit HTTP status 200. -/
structure SuccessDict where
  status : String
  message : String
  dag_id : String
  dag_conf : List (String × PyVal)
  response : Option String

/-- Error dictionary returned by the handler from the except branch. -/
structure ErrorDict where
  status : String
  message : String
deriving Repr, DecidableEq

/-- Value returned by the handler: either a bare success dict (implicit
HTTP 200) or a pair of an error dict and an explicit HTTP status code. -/
inductive HandlerResult where
  | dict (d : SuccessDict)
  | dictWithStatus (d : ErrorDict) (code : Nat)

/-- Parameter extraction of trigger_dag_gcf (lines 87-100 of src/main.py):
on POST, parse the body silently and, when the parsed value is truthy, read
bucket and file through dict.get with placeholder defaults, otherwise use
the placeholder defaults; on any other method read the query parameters
with the same defaults. -/
def handler_params (request : FlaskRequest) : Except PyErr (PyVal × PyVal) :=
  if request.method = "POST" then
    match request.json_body with
    | some request_json =>
      if py_truthy request_json then do
        let bucket ← request_json.get "bucket" (.str "YOUR-BUCKET-NAME")
        let file_path ← request_json.get "file" (.str "INPUT-PATH-TO-FILE")
        pure (bucket, file_path)
      else
        pure (.str "YOUR-BUCKET-NAME", .str "INPUT-PATH-TO-FILE")
    | none =>
      pure (.str "YOUR-BUCKET-NAME", .str "INPUT-PATH-TO-FILE")
  else
    pure (.str ((request.args.lookup "bucket").getD "YOUR-BUCKET-NAME"),
          .str ((request.args.lookup "file").getD "INPUT-PATH-TO-FILE"))

/-- Body of the try block of trigger_dag_gcf (lines 86-124 of src/main.py):
extract the parameters, fix the hardcoded web server url and dag id, build
the configuration payload, call trigger_dag, and build the success dict. -/
def gcf_body (session : HttpSession) (request : FlaskRequest) :
    Except PyErr SuccessDict := do
  let (bucket, file_path) ← handler_params request
  let web_server_url := "YOUR-WEB-SERVER-URL"
  let dag_id := "gcs_dataflow_bigquery_official"
  let dag_conf := [("bucket", bucket), ("file", file_path)]
  let response_text ← trigger_dag session web_server_url dag_id dag_conf
  pure { status := "success", message := "DAG triggered successfully",
         dag_id := dag_id, dag_conf := dag_conf, response := response_text }

/-- trigger_dag_gcf from src/main.py: runs the try body and catches every
exception at top level, converting it into the error dict paired with HTTP
status 500. -/
def trigger_dag_gcf (session : HttpSession) (request : FlaskRequest) :
    HandlerResult :=
  match gcf_body session request with
  | .ok d => .dict d
  | .error e => .dictWithStatus
      { status := "error", message := "Failed to trigger DAG: " ++ str_of_exc e } 500

/-- Request shape stated by the specification for the Run Trigger: a POST to
the base url joined with the dagRuns path parameterized by the dag id, whose
JSON body is the configuration wrapped under the single key conf, issued
with the default timeout of 90. -/
def trigger_dag_request_spec (web_server_url : String) (dag_id : String)
    (data : List (String × PyVal)) : HttpRequest :=
  { method := "POST"
    url := web_server_url ++ "/" ++ ("api/v1/dags/" ++ dag_id ++ "/dagRuns")
    json := some (PyVal.obj [("conf", PyVal.obj data)])
    timeout := some 90 }

/-- Unfolding lemma: trigger_dag consults the session at exactly the request
described by trigger_dag_request_spec and classifies the outcome. -/
theorem trigger_dag_unfold (session : HttpSession) (web_server_url : String)
    (dag_id : String) (data : List (String × PyVal)) :
    trigger_dag session web_server_url dag_id data =
      Except.bind (session (trigger_dag_request_spec web_server_url dag_id data))
        (fun response =>
          if response.status_code = 403 then
            Except.error (PyErr.HTTPError
              ("You do not have a permission to perform this operation. " ++
               "Check Airflow RBAC roles for your account." ++
               response.headers ++ " / " ++ response.text))
          else if response.status_code ≠ 200 then
            Except.bind (raise_for_status response) (fun _ => Except.ok none)
          else
            Except.ok (some response.text)) := rfl

/-- C8: for every call to the authenticated request client in which the
caller does not supply a timeout keyword argument, the request is issued
with timeout 90; when the caller does supply a timeout, the supplied value
is used unchanged. -/
theorem make_request_default_timeout (session : HttpSession)
    (url : String) (method : String) (j : Option PyVal) :
    (make_composer2_web_server_request session url method
        { json := j, timeout := none } =
      session { method := method, url := url, json := j, timeout := some 90 }) ∧
    (∀ t : Nat, make_composer2_web_server_request session url method
        { json := j, timeout := some t } =
      session { method := method, url := url, json := j, timeout := some t }) :=
  ⟨rfl, fun _ => rfl⟩

/-- C6: for every base url, dag id and configuration mapping, trigger_dag
consults the session only at the single request described by
trigger_dag_request_spec (a POST to the base url joined with the
parameterized dagRuns path, whose JSON body wraps the configuration under
the single key conf), and every observation of the issued request through
an echoing session evaluates that observation at exactly this request. -/
theorem trigger_dag_single_post_request (web_server_url : String)
    (dag_id : String) (data : List (String × PyVal)) :
    (∀ s₁ s₂ : HttpSession,
      s₁ (trigger_dag_request_spec web_server_url dag_id data) =
        s₂ (trigger_dag_request_spec web_server_url dag_id data) →
      trigger_dag s₁ web_server_url dag_id data =
        trigger_dag s₂ web_server_url dag_id data) ∧
    (∀ g : HttpRequest → String,
      trigger_dag (fun r => Except.ok
          { status_code := 200, headers := "", text := g r, reason := "", url := r.url })
          web_server_url dag_id data =
        Except.ok (some (g (trigger_dag_request_spec web_server_url dag_id data)))) := by
  constructor
  · intro s₁ s₂ h
    rw [trigger_dag_unfold, trigger_dag_unfold, h]
  · intro g
    rw [trigger_dag_unfold]
    rfl

/-- C6 witness: the theorem applied to the concrete base url u, dag id d and
empty configuration; the first hypothesis is discharged with two identical
sessions, which agree in particular at the issued request, and the second
conjunct is instantiated at the observation of the request url. -/
theorem trigger_dag_single_post_request_witness :
    (trigger_dag (fun _ => Except.ok
        { status_code := 200, headers := "", text := "ok", reason := "OK", url := "u" })
        "u" "d" [] =
      trigger_dag (fun _ => Except.ok
        { status_code := 200, headers := "", text := "ok", reason := "OK", url := "u" })
        "u" "d" []) ∧
    (trigger_dag (fun r => Except.ok
        { status_code := 200, headers := "", text := r.url, reason := "", url := r.url })
        "u" "d" [] =
      Except.ok (some "u/api/v1/dags/d/dagRuns")) :=
  ⟨(trigger_dag_single_post_request "u" "d" []).1
      (fun _ => Except.ok
        { status_code := 200, headers := "", text := "ok", reason := "OK", url := "u" })
      (fun _ => Except.ok
        { status_code := 200, headers := "", text := "ok", reason := "OK", url := "u" })
      rfl,
   (trigger_dag_single_post_request "u" "d" []).2 (fun r => r.url)⟩

/-- C1 counterexample: on an outbound response with status 201 (neither 200
nor 403) trigger_dag raises no HTTP error at all: raise_for_status does
nothing outside 4xx/5xx, so the call falls off the end of the function and
returns Python None, modelled as Except.ok none. -/
theorem trigger_dag_status_201_no_raise :
    trigger_dag (fun _ => Except.ok
        { status_code := 201, headers := "H", text := "created-body",
          reason := "Created", url := "U" })
      "u" "d" [] = Except.ok none := rfl

/-- C1 amended: for every outbound response whose status code lies in the
4xx/5xx range and is not 403, trigger_dag raises the underlying HTTP error
produced by raise_for_status, whose message names the status code and the
reason phrase (Client Error for 4xx, Server Error for 5xx). -/
theorem trigger_dag_client_server_error_raises (resp : HttpResponse)
    (web_server_url : String) (dag_id : String) (data : List (String × PyVal))
    (hlo : 400 ≤ resp.status_code) (hhi : resp.status_code < 600)
    (hne : resp.status_code ≠ 403) :
    trigger_dag (fun _ => Except.ok resp) web_server_url dag_id data =
      Except.error (PyErr.HTTPError (toString resp.status_code ++
        (if resp.status_code < 500 then " Client Error: " else " Server Error: ") ++
        resp.reason ++ " for url: " ++ resp.url)) := by
  rw [trigger_dag_unfold]
  have h200 : resp.status_code ≠ 200 := by omega
  by_cases hc : resp.status_code < 500
  · simp [hne, h200, raise_for_status, Except.bind, hc, hlo]
  · simp [hne, h200, raise_for_status, Except.bind, hc]
    rw [if_pos ⟨by omega, hhi⟩]

/-- C1 amended witness: at the concrete status 404 with reason phrase
NOT FOUND, trigger_dag raises the HTTP error naming the status code and
reason phrase. -/
theorem trigger_dag_client_server_error_raises_witness :
    trigger_dag (fun _ => Except.ok
        { status_code := 404, headers := "H", text := "missing",
          reason := "NOT FOUND", url := "U" })
      "u" "d" [] =
      Except.error (PyErr.HTTPError "404 Client Error: NOT FOUND for url: U") :=
  trigger_dag_client_server_error_raises
    { status_code := 404, headers := "H", text := "missing",
      reason := "NOT FOUND", url := "U" }
    "u" "d" [] (by decide) (by decide) (by decide)

/-- Unfolding lemma: once parameter extraction has produced the bucket and
file values, the try body of the handler passes exactly the configuration
payload built from them to trigger_dag and maps the success dict over the
outcome. -/
theorem gcf_body_eq (session : HttpSession) (request : FlaskRequest)
    (b f : PyVal) (hp : handler_params request = Except.ok (b, f)) :
    gcf_body session request = Except.map
      (fun t => SuccessDict.mk "success" "DAG triggered successfully"
        "gcs_dataflow_bigquery_official" [("bucket", b), ("file", f)] t)
      (trigger_dag session "YOUR-WEB-SERVER-URL" "gcs_dataflow_bigquery_official"
        [("bucket", b), ("file", f)]) := by
  unfold gcf_body
  rw [hp]
  rfl

/-- C10: for every outbound response whose status code is in the 2xx or 3xx
range but is not 200, trigger_dag raises no error and returns Python None
(Option.none), so the handler returns the success dict whose response field
is None. -/
theorem trigger_dag_redirect_2xx_returns_none (resp : HttpResponse)
    (request : FlaskRequest) (b f : PyVal)
    (hlo : 200 ≤ resp.status_code) (hhi : resp.status_code < 400)
    (hne : resp.status_code ≠ 200)
    (hp : handler_params request = Except.ok (b, f)) :
    trigger_dag (fun _ => Except.ok resp) "YOUR-WEB-SERVER-URL"
        "gcs_dataflow_bigquery_official" [("bucket", b), ("file", f)] =
      Except.ok none ∧
    trigger_dag_gcf (fun _ => Except.ok resp) request =
      HandlerResult.dict
        { status := "success", message := "DAG triggered successfully",
          dag_id := "gcs_dataflow_bigquery_official",
          dag_conf := [("bucket", b), ("file", f)], response := none } := by
  have h403 : resp.status_code ≠ 403 := by omega
  have htd : trigger_dag (fun _ => Except.ok resp) "YOUR-WEB-SERVER-URL"
      "gcs_dataflow_bigquery_official" [("bucket", b), ("file", f)] =
      Except.ok none := by
    rw [trigger_dag_unfold]
    simp [h403, hne, raise_for_status, Except.bind,
      show ¬(400 ≤ resp.status_code ∧ resp.status_code < 500) by omega,
      show ¬(500 ≤ resp.status_code ∧ resp.status_code < 600) by omega]
  refine ⟨htd, ?_⟩
  unfold trigger_dag_gcf
  rw [gcf_body_eq _ _ _ _ hp, htd]
  rfl

/-- C10 witness: at the concrete redirect status 302 on a GET request with
no query parameters, trigger_dag returns Option.none and the handler
returns the success dict with a None response field. -/
theorem trigger_dag_redirect_2xx_returns_none_witness :
    trigger_dag (fun _ => Except.ok
        { status_code := 302, headers := "H", text := "moved",
          reason := "FOUND", url := "U" })
      "YOUR-WEB-SERVER-URL" "gcs_dataflow_bigquery_official"
      [("bucket", PyVal.str "YOUR-BUCKET-NAME"),
       ("file", PyVal.str "INPUT-PATH-TO-FILE")] = Except.ok none ∧
    trigger_dag_gcf (fun _ => Except.ok
        { status_code := 302, headers := "H", text := "moved",
          reason := "FOUND", url := "U" })
      { method := "GET", json_body := none, args := [] } =
      HandlerResult.dict
        { status := "success", message := "DAG triggered successfully",
          dag_id := "gcs_dataflow_bigquery_official",
          dag_conf := [("bucket", PyVal.str "YOUR-BUCKET-NAME"),
                       ("file", PyVal.str "INPUT-PATH-TO-FILE")],
          response := none } :=
  trigger_dag_redirect_2xx_returns_none
    { status_code := 302, headers := "H", text := "moved",
      reason := "FOUND", url := "U" }
    { method := "GET", json_body := none, args := [] }
    (PyVal.str "YOUR-BUCKET-NAME") (PyVal.str "INPUT-PATH-TO-FILE")
    (by decide) (by decide) (by decide) rfl

/-- C3: for every outbound response with status code 200, trigger_dag
returns the response body text unchanged, and the handler returns the bare
success dict (implicit HTTP 200) whose response field is exactly that body
text, together with the dag_id and dag_conf fields. -/
theorem handler_status_200_success (resp : HttpResponse)
    (request : FlaskRequest) (b f : PyVal)
    (h200 : resp.status_code = 200)
    (hp : handler_params request = Except.ok (b, f)) :
    trigger_dag (fun _ => Except.ok resp) "YOUR-WEB-SERVER-URL"
        "gcs_dataflow_bigquery_official" [("bucket", b), ("file", f)] =
      Except.ok (some resp.text) ∧
    trigger_dag_gcf (fun _ => Except.ok resp) request =
      HandlerResult.dict
        { status := "success", message := "DAG triggered successfully",
          dag_id := "gcs_dataflow_bigquery_official",
          dag_conf := [("bucket", b), ("file", f)],
          response := some resp.text } := by
  have htd : trigger_dag (fun _ => Except.ok resp) "YOUR-WEB-SERVER-URL"
      "gcs_dataflow_bigquery_official" [("bucket", b), ("file", f)] =
      Except.ok (some resp.text) := by
    rw [trigger_dag_unfold]
    simp [h200, Except.bind]
  refine ⟨htd, ?_⟩
  unfold trigger_dag_gcf
  rw [gcf_body_eq _ _ _ _ hp, htd]
  rfl

/-- C3 witness: at a concrete 200 response with body text hello on a GET
request asking for bucket b1 and file f1, the handler echoes hello in the
response field of the success dict. -/
theorem handler_status_200_success_witness :
    trigger_dag (fun _ => Except.ok
        { status_code := 200, headers := "H", text := "hello",
          reason := "OK", url := "U" })
      "YOUR-WEB-SERVER-URL" "gcs_dataflow_bigquery_official"
      [("bucket", PyVal.str "b1"), ("file", PyVal.str "f1")] =
      Except.ok (some "hello") ∧
    trigger_dag_gcf (fun _ => Except.ok
        { status_code := 200, headers := "H", text := "hello",
          reason := "OK", url := "U" })
      { method := "GET", json_body := none,
        args := [("bucket", "b1"), ("file", "f1")] } =
      HandlerResult.dict
        { status := "success", message := "DAG triggered successfully",
          dag_id := "gcs_dataflow_bigquery_official",
          dag_conf := [("bucket", PyVal.str "b1"), ("file", PyVal.str "f1")],
          response := some "hello" } :=
  handler_status_200_success
    { status_code := 200, headers := "H", text := "hello",
      reason := "OK", url := "U" }
    { method := "GET", json_body := none,
      args := [("bucket", "b1"), ("file", "f1")] }
    (PyVal.str "b1") (PyVal.str "f1") rfl rfl

/-- C4: for every outbound response with status code 403, trigger_dag raises
an HTTPError whose message is the fixed explanatory string about permissions
followed by the raw response headers and body text, and the handler returns
the error dict with HTTP status 500 whose message contains the literal
substring permission. -/
theorem handler_status_403_permission (resp : HttpResponse)
    (request : FlaskRequest) (b f : PyVal)
    (h403 : resp.status_code = 403)
    (hp : handler_params request = Except.ok (b, f)) :
    trigger_dag (fun _ => Except.ok resp) "YOUR-WEB-SERVER-URL"
        "gcs_dataflow_bigquery_official" [("bucket", b), ("file", f)] =
      Except.error (PyErr.HTTPError
        ("You do not have a permission to perform this operation. " ++
         "Check Airflow RBAC roles for your account." ++
         resp.headers ++ " / " ++ resp.text)) ∧
    trigger_dag_gcf (fun _ => Except.ok resp) request =
      HandlerResult.dictWithStatus
        { status := "error",
          message := "Failed to trigger DAG: " ++
            ("You do not have a permission to perform this operation. " ++
             "Check Airflow RBAC roles for your account." ++
             resp.headers ++ " / " ++ resp.text) } 500 ∧
    (∃ pre post, "Failed to trigger DAG: " ++
        ("You do not have a permission to perform this operation. " ++
         "Check Airflow RBAC roles for your account." ++
         resp.headers ++ " / " ++ resp.text) =
      pre ++ "permission" ++ post) := by
  have htd : trigger_dag (fun _ => Except.ok resp) "YOUR-WEB-SERVER-URL"
      "gcs_dataflow_bigquery_official" [("bucket", b), ("file", f)] =
      Except.error (PyErr.HTTPError
        ("You do not have a permission to perform this operation. " ++
         "Check Airflow RBAC roles for your account." ++
         resp.headers ++ " / " ++ resp.text)) := by
    rw [trigger_dag_unfold]
    simp [h403, Except.bind]
  refine ⟨htd, ?_, ?_⟩
  · unfold trigger_dag_gcf
    rw [gcf_body_eq _ _ _ _ hp, htd]
    rfl
  · refine ⟨"Failed to trigger DAG: You do not have a ",
      " to perform this operation. Check Airflow RBAC roles for your account." ++
        resp.headers ++ " / " ++ resp.text, ?_⟩
    simp only [← String.append_assoc]
    rfl

/-- C4 witness: at a concrete 403 response with printed headers HDRS and
body text denied, trigger_dag raises the permission error and the handler
returns the error dict with status 500; the message decomposes around the
literal substring permission. -/
theorem handler_status_403_permission_witness :
    trigger_dag (fun _ => Except.ok
        { status_code := 403, headers := "HDRS", text := "denied",
          reason := "FORBIDDEN", url := "U" })
      "YOUR-WEB-SERVER-URL" "gcs_dataflow_bigquery_official"
      [("bucket", PyVal.str "YOUR-BUCKET-NAME"),
       ("file", PyVal.str "INPUT-PATH-TO-FILE")] =
      Except.error (PyErr.HTTPError
        ("You do not have a permission to perform this operation. " ++
         "Check Airflow RBAC roles for your account." ++
         "HDRS" ++ " / " ++ "denied")) ∧
    trigger_dag_gcf (fun _ => Except.ok
        { status_code := 403, headers := "HDRS", text := "denied",
          reason := "FORBIDDEN", url := "U" })
      { method := "GET", json_body := none, args := [] } =
      HandlerResult.dictWithStatus
        { status := "error",
          message := "Failed to trigger DAG: " ++
            ("You do not have a permission to perform this operation. " ++
             "Check Airflow RBAC roles for your account." ++
             "HDRS" ++ " / " ++ "denied") } 500 ∧
    (∃ pre post, "Failed to trigger DAG: " ++
        ("You do not have a permission to perform this operation. " ++
         "Check Airflow RBAC roles for your account." ++
         "HDRS" ++ " / " ++ "denied") =
      pre ++ "permission" ++ post) :=
  handler_status_403_permission
    { status_code := 403, headers := "HDRS", text := "denied",
      reason := "FORBIDDEN", url := "U" }
    { method := "GET", json_body := none, args := [] }
    (PyVal.str "YOUR-BUCKET-NAME") (PyVal.str "INPUT-PATH-TO-FILE")
    rfl rfl

/-- C5: for every session and request, the handler converts every exception
raised inside the try body into exactly the pair of the error dict with
message Failed to trigger DAG followed by the exception text and HTTP status
500, passes successful bodies through as the bare success dict, and in every
case returns one of these two shapes, never propagating an exception (the
handler is a total function into HandlerResult). -/
theorem handler_catches_all_exceptions (session : HttpSession)
    (request : FlaskRequest) :
    (∀ e, gcf_body session request = Except.error e →
      trigger_dag_gcf session request = HandlerResult.dictWithStatus
        { status := "error",
          message := "Failed to trigger DAG: " ++ str_of_exc e } 500) ∧
    (∀ d, gcf_body session request = Except.ok d →
      trigger_dag_gcf session request = HandlerResult.dict d) ∧
    ((∃ d, trigger_dag_gcf session request = HandlerResult.dict d) ∨
     (∃ e, trigger_dag_gcf session request = HandlerResult.dictWithStatus
        { status := "error",
          message := "Failed to trigger DAG: " ++ str_of_exc e } 500)) := by
  unfold trigger_dag_gcf
  rcases hg : gcf_body session request with e | d
  · exact ⟨fun e' he => by simp_all, fun d hd => by simp_all, Or.inr ⟨e, rfl⟩⟩
  · exact ⟨fun e' he => by simp_all, fun d' hd => by simp_all, Or.inl ⟨d, rfl⟩⟩

/-- C5 witness: with a session that fails with a transport error boom, the
try body fails and the handler returns exactly the error dict pair with
status 500 and the exception text appended to the fixed message. -/
theorem handler_catches_all_exceptions_witness :
    trigger_dag_gcf (fun _ => Except.error (PyErr.TransportError "boom"))
      { method := "GET", json_body := none, args := [] } =
      HandlerResult.dictWithStatus
        { status := "error", message := "Failed to trigger DAG: boom" } 500 :=
  (handler_catches_all_exceptions
      (fun _ => Except.error (PyErr.TransportError "boom"))
      { method := "GET", json_body := none, args := [] }).1
    (PyErr.TransportError "boom") rfl

/-- C2: for every inbound POST request whose body parses as a JSON object,
the bucket and file parameters are the object's bucket and file fields with
the placeholder defaults when absent (an empty object is falsy in Python
and takes the default branch, which agrees with field lookup on an empty
object); for every non-POST request they are read from the query parameters
with the same defaults; and whenever parameter extraction yields a pair,
the configuration payload the handler passes to trigger_dag is exactly the
two-field mapping built from that pair. -/
theorem handler_config_payload (session : HttpSession)
    (request : FlaskRequest) :
    (∀ fields, request.method = "POST" →
      request.json_body = some (PyVal.obj fields) →
      handler_params request = Except.ok
        ((fields.lookup "bucket").getD (PyVal.str "YOUR-BUCKET-NAME"),
         (fields.lookup "file").getD (PyVal.str "INPUT-PATH-TO-FILE"))) ∧
    (request.method ≠ "POST" →
      handler_params request = Except.ok
        (PyVal.str ((request.args.lookup "bucket").getD "YOUR-BUCKET-NAME"),
         PyVal.str ((request.args.lookup "file").getD "INPUT-PATH-TO-FILE"))) ∧
    (∀ b f, handler_params request = Except.ok (b, f) →
      gcf_body session request = Except.map
        (fun t => SuccessDict.mk "success" "DAG triggered successfully"
          "gcs_dataflow_bigquery_official" [("bucket", b), ("file", f)] t)
        (trigger_dag session "YOUR-WEB-SERVER-URL"
          "gcs_dataflow_bigquery_official" [("bucket", b), ("file", f)])) := by
  refine ⟨?_, ?_, fun b f hp => gcf_body_eq session request b f hp⟩
  · intro fields hm hb
    unfold handler_params
    rw [hm, hb]
    simp only [if_pos rfl]
    rcases fields with _ | ⟨kv, rest⟩
    · rfl
    · simp [py_truthy, PyVal.get, Except.bind]
      rfl
  · intro hm
    unfold handler_params
    rw [if_neg hm]
    rfl

/-- C2 witness: on a concrete POST request whose JSON body holds bucket b1
and file f1, parameter extraction returns exactly those values, and the try
body passes the two-field configuration payload built from them to
trigger_dag (instantiated with a session answering 200 with body ok). -/
theorem handler_config_payload_witness :
    handler_params
        { method := "POST",
          json_body := some (PyVal.obj
            [("bucket", PyVal.str "b1"), ("file", PyVal.str "f1")]),
          args := [] } =
      Except.ok (PyVal.str "b1", PyVal.str "f1") ∧
    gcf_body (fun _ => Except.ok
        { status_code := 200, headers := "", text := "ok",
          reason := "OK", url := "U" })
        { method := "POST",
          json_body := some (PyVal.obj
            [("bucket", PyVal.str "b1"), ("file", PyVal.str "f1")]),
          args := [] } =
      Except.map
        (fun t => SuccessDict.mk "success" "DAG triggered successfully"
          "gcs_dataflow_bigquery_official"
          [("bucket", PyVal.str "b1"), ("file", PyVal.str "f1")] t)
        (trigger_dag (fun _ => Except.ok
            { status_code := 200, headers := "", text := "ok",
              reason := "OK", url := "U" })
          "YOUR-WEB-SERVER-URL" "gcs_dataflow_bigquery_official"
          [("bucket", PyVal.str "b1"), ("file", PyVal.str "f1")]) :=
  ⟨(handler_config_payload
      (fun _ => Except.ok
        { status_code := 200, headers := "", text := "ok",
          reason := "OK", url := "U" })
      { method := "POST",
        json_body := some (PyVal.obj
          [("bucket", PyVal.str "b1"), ("file", PyVal.str "f1")]),
        args := [] }).1
    [("bucket", PyVal.str "b1"), ("file", PyVal.str "f1")] rfl rfl,
   (handler_config_payload
      (fun _ => Except.ok
        { status_code := 200, headers := "", text := "ok",
          reason := "OK", url := "U" })
      { method := "POST",
        json_body := some (PyVal.obj
          [("bucket", PyVal.str "b1"), ("file", PyVal.str "f1")]),
        args := [] }).2.2
    (PyVal.str "b1") (PyVal.str "f1") rfl⟩

/-- C7: for every POST request whose body is absent or is not valid JSON,
request.get_json(silent=True) yields None without raising, parameter
extraction succeeds with the placeholder defaults, and the try body
proceeds exactly as with no body, passing the default configuration payload
to trigger_dag. -/
theorem handler_post_invalid_json_defaults (session : HttpSession)
    (request : FlaskRequest)
    (hm : request.method = "POST") (hb : request.json_body = none) :
    handler_params request = Except.ok
      (PyVal.str "YOUR-BUCKET-NAME", PyVal.str "INPUT-PATH-TO-FILE") ∧
    gcf_body session request = Except.map
      (fun t => SuccessDict.mk "success" "DAG triggered successfully"
        "gcs_dataflow_bigquery_official"
        [("bucket", PyVal.str "YOUR-BUCKET-NAME"),
         ("file", PyVal.str "INPUT-PATH-TO-FILE")] t)
      (trigger_dag session "YOUR-WEB-SERVER-URL"
        "gcs_dataflow_bigquery_official"
        [("bucket", PyVal.str "YOUR-BUCKET-NAME"),
         ("file", PyVal.str "INPUT-PATH-TO-FILE")]) := by
  have hp : handler_params request = Except.ok
      (PyVal.str "YOUR-BUCKET-NAME", PyVal.str "INPUT-PATH-TO-FILE") := by
    unfold handler_params
    rw [hm, hb]
    rfl
  exact ⟨hp, gcf_body_eq session request _ _ hp⟩

/-- C7 witness: the theorem applied to a concrete POST request whose body
failed silent JSON parsing, with a session answering 200. -/
theorem handler_post_invalid_json_defaults_witness :
    handler_params { method := "POST", json_body := none, args := [] } =
      Except.ok (PyVal.str "YOUR-BUCKET-NAME", PyVal.str "INPUT-PATH-TO-FILE") :=
  (handler_post_invalid_json_defaults
    (fun _ => Except.ok
      { status_code := 200, headers := "", text := "ok",
        reason := "OK", url := "U" })
    { method := "POST", json_body := none, args := [] } rfl rfl).1

/-- C9: for every POST request whose body parses to a falsy JSON value, such
as the empty object, the handler treats the body as absent and extracts the
placeholder defaults, even though a syntactically valid body was present. -/
theorem handler_post_falsy_body_defaults (request : FlaskRequest) (v : PyVal)
    (hm : request.method = "POST") (hb : request.json_body = some v)
    (hf : py_truthy v = false) :
    handler_params request = Except.ok
      (PyVal.str "YOUR-BUCKET-NAME", PyVal.str "INPUT-PATH-TO-FILE") := by
  unfold handler_params
  rw [hm, hb]
  simp [hf]
  rfl

/-- C9 witness: the theorem applied to a concrete POST request whose body is
the empty JSON object, which is falsy. -/
theorem handler_post_falsy_body_defaults_witness :
    handler_params
        { method := "POST", json_body := some (PyVal.obj []), args := [] } =
      Except.ok (PyVal.str "YOUR-BUCKET-NAME", PyVal.str "INPUT-PATH-TO-FILE") :=
  handler_post_falsy_body_defaults
    { method := "POST", json_body := some (PyVal.obj []), args := [] }
    (PyVal.obj []) rfl rfl rfl
